import Mathlib

/-!
Verification of the PySpark ETL example job
(`src/jobs/domain/system/etl_job_base.py` and
`src/jobs/domain/system/etl_job_base_functions.py`).

The job is a three-stage batch pipeline: `extract_data` reads a parquet
dataset of employee records, `transform_data` performs a row-wise
`select` producing `id`, `name = concat_ws(' ', first_name, second_name)`
and `steps_to_desk = floor * steps_per_floor`, and `load_data` coalesces
the result to one partition and writes it as CSV with a header row in
overwrite mode.  We embed the dataframe as a list of rows (a partitioned
dataframe as a list of partitions), Spark's nullable string columns as
`Option String`, and the column expressions used by the job as Lean
functions.
-/

namespace PysparkEtl

/-- A row of the input employees dataset (see `create_test_data`):
columns `id`, `first_name`, `second_name`, `floor`.  Spark string columns
are nullable, so the two name fields are `Option String`. -/
structure Record where
  id : Int
  first_name : Option String
  second_name : Option String
  floor : Int
deriving Repr, DecidableEq

/-- A row of the transformed dataset produced by `transform_data`:
columns `id`, `name`, `steps_to_desk`. -/
structure ReportRecord where
  id : Int
  name : String
  steps_to_desk : Int
deriving Repr, DecidableEq

/-- Joins a list of strings with the separator `sep` between consecutive
elements (no leading or trailing separator). -/
def joinSep (sep : String) : List String → String
  | [] => ""
  | [x] => x
  | x :: y :: xs => x ++ sep ++ joinSep sep (y :: xs)

/-- Spark's `concat_ws(sep, cols...)`: concatenates the non-null
arguments with `sep` between them, silently skipping null arguments;
the result is never null (it is `""` when every argument is null). -/
def concat_ws (sep : String) (cols : List (Option String)) : String :=
  joinSep sep (cols.filterMap id)

/-- The `select` expression of `transform_data` applied to one row:
`col('id')`, `concat_ws(' ', col('first_name'), col('second_name'))`
aliased `name`, and `col('floor') * lit(steps_per_floor_)` aliased
`steps_to_desk`. -/
def transformRow (steps_per_floor_ : Int) (r : Record) : ReportRecord :=
  { id := r.id
  , name := concat_ws " " [r.first_name, r.second_name]
  , steps_to_desk := r.floor * steps_per_floor_ }

/-- `transform_data(df, steps_per_floor_)`: a `select` of per-row column
expressions, i.e. a row-wise map over the dataframe. -/
def transform_data (df : List Record) (steps_per_floor_ : Int) :
    List ReportRecord :=
  df.map (transformRow steps_per_floor_)

/-- One CSV line for a `ReportRecord`: the three column values joined by
commas (none of the job's values requires quoting). -/
def csvRow (r : ReportRecord) : String :=
  joinSep "," [toString r.id, r.name, toString r.steps_to_desk]

/-- The CSV header row written because `load_data` passes `header=True`. -/
def csvHeader : String := "id,name,steps_to_desk"

/-- The content of one CSV part file: the header row followed by one
line per row of the partition. -/
def csvFile (rows : List ReportRecord) : String :=
  csvHeader ++ String.join (rows.map (fun r => "\n" ++ csvRow r))

/-- `df.coalesce(1)`: merges all partitions of the dataframe into a
single partition (a dataframe that already has at most one partition is
left as is). -/
def coalesce1 (partitions : List (List ReportRecord)) :
    List (List ReportRecord) :=
  if partitions.length ≤ 1 then partitions else [partitions.flatten]

/-- `load_data(df)`: `df.coalesce(1).write.csv(path, mode='overwrite',
header=True)`.  The write produces one part file per partition, each
with a header row; `mode='overwrite'` discards whatever files were
previously at the output path (`prior`), so the result does not depend
on them. -/
def load_data (df : List (List ReportRecord)) (prior : List String) :
    List String :=
  (coalesce1 df).map csvFile

/-- `extract_data(spark)`: reads the employees parquet file; modelled as
returning the rows stored at the input path. -/
def extract_data (store : List Record) : List Record := store

/-- The three ETL stages, used to record the order in which the driver
runs them. -/
inductive Stage
  | extract
  | transform
  | load
deriving Repr, DecidableEq

/-- `extract_data` instrumented with the stage it performs. -/
def extractTraced (store : List Record) : List Record × List Stage :=
  (extract_data store, [Stage.extract])

/-- `transform_data` instrumented with the stage it performs. -/
def transformTraced (df : List Record) (spf : Int) :
    List ReportRecord × List Stage :=
  (transform_data df spf, [Stage.transform])

/-- `load_data` instrumented with the stage it performs. -/
def loadTraced (df : List (List ReportRecord)) (prior : List String) :
    List String × List Stage :=
  (load_data df prior, [Stage.load])

/-- The driver `job(spark, log, steps_per_floor)`: straight-line code
running extract, then transform, then load, once each (the `log.warn`
calls and `data.show()` touch no data).  Returns the written files and
the trace of stages in execution order. -/
def job (store : List Record) (steps_per_floor : Int)
    (prior : List String) : List String × List Stage :=
  let e := extractTraced store
  let t := transformTraced e.1 steps_per_floor
  let l := loadTraced [t.1] prior
  (l.1, e.2 ++ t.2 ++ l.2)

/-- The eight rows built by `create_test_data`. -/
def local_records : List Record :=
  [ ⟨1, some "Dan", some "Germain", 1⟩
  , ⟨2, some "Dan", some "Sommerville", 1⟩
  , ⟨3, some "Alex", some "Ioannides", 2⟩
  , ⟨4, some "Ken", some "Lai", 2⟩
  , ⟨5, some "Stu", some "White", 3⟩
  , ⟨6, some "Mark", some "Sweeting", 3⟩
  , ⟨7, some "Phil", some "Bird", 4⟩
  , ⟨8, some "Kim", some "Suter", 4⟩ ]

/-- C1: for every input dataset and every scalar `steps_per_floor`, each
row's `steps_to_desk` produced by `transform_data` equals
`floor * steps_per_floor` exactly — integer arithmetic, no rounding. -/
theorem transform_steps_to_desk_exact (df : List Record) (spf : Int) :
    (transform_data df spf).map ReportRecord.steps_to_desk
      = df.map (fun r => r.floor * spf) := by
  simp [transform_data, transformRow]

/-- C2: for every row whose `first_name` and `second_name` are both
non-null, the `name` produced by `transform_data` is the two fields
joined by exactly one space, with no trimming. -/
theorem transform_name_space_join (df : List Record) (spf : Int)
    (i : Nat) (h : i < df.length)
    (h2 : i < (transform_data df spf).length) (a b : String)
    (ha : df[i].first_name = some a) (hb : df[i].second_name = some b) :
    (transform_data df spf)[i].name = a ++ " " ++ b := by
  simp [transform_data, transformRow, concat_ws, joinSep, ha, hb]

theorem transform_name_space_join_witness :
    ((transform_data local_records 21).get ⟨0, by decide⟩).name
      = "Dan" ++ " " ++ "Germain" :=
  transform_name_space_join local_records 21 0 (by decide) (by decide)
    "Dan" "Germain" rfl rfl

/-- C3: the output of `transform_data` has exactly as many rows as the
input, in the same order, and each output row is computed from exactly
the input row at the same position — no aggregation, joins or
filtering. -/
theorem transform_row_wise (df : List Record) (spf : Int) :
    (transform_data df spf).length = df.length ∧
    ∀ (i : Nat), i < df.length → i < (transform_data df spf).length →
      ∀ (h2 : i < (transform_data df spf).length),
        (transform_data df spf).get ⟨i, h2⟩
          = transformRow spf (df.get ⟨i, by simpa [transform_data] using h2⟩) := by
  refine ⟨by simp [transform_data], ?_⟩
  intro i _ _ h2
  simp [transform_data]

theorem transform_row_wise_witness :
    (transform_data local_records 21).length = local_records.length ∧
    (transform_data local_records 21).get ⟨2, by decide⟩
      = transformRow 21 (local_records.get ⟨2, by decide⟩) :=
  ⟨(transform_row_wise local_records 21).1,
   (transform_row_wise local_records 21).2 2 (by decide) (by decide)
     (by decide)⟩

/-- C4: `transform_data` passes the `id` column through unchanged, row
by row. -/
theorem transform_id_unchanged (df : List Record) (spf : Int) :
    (transform_data df spf).map ReportRecord.id = df.map Record.id := by
  simp [transform_data, transformRow]

/-- C5: `transform_data` is pure and stateless: in this embedding it is
a function over its two arguments (the `select` only builds per-row
column expressions and mutates nothing), so its input dataset is left
unchanged and its output depends on nothing but the input dataset and
`steps_per_floor`. -/
theorem transform_data_pure (df₁ df₂ : List Record) (spf₁ spf₂ : Int)
    (hdf : df₁ = df₂) (hspf : spf₁ = spf₂) :
    transform_data df₁ spf₁ = transform_data df₂ spf₂ := by
  rw [hdf, hspf]

theorem transform_data_pure_witness :
    transform_data local_records 21 = transform_data local_records 21 :=
  transform_data_pure local_records local_records 21 21 rfl rfl

/-- C6: rerunning transform followed by load with the identical input
dataset and identical `steps_per_floor` overwrites the prior output
with byte-identical content (`mode='overwrite'` ignores what was at the
path before): the same rows in the same order. -/
theorem transform_load_idempotent (df : List Record) (spf : Int)
    (parts : List (List ReportRecord))
    (hp : parts.flatten = transform_data df spf)
    (prior₁ prior₂ : List String) :
    load_data parts prior₁ = load_data parts prior₂ := rfl

theorem transform_load_idempotent_witness :
    load_data [transform_data local_records 21] ["old file"]
      = load_data [transform_data local_records 21] [] :=
  transform_load_idempotent local_records 21
    [transform_data local_records 21] (by simp) ["old file"] []

/-- C7: on `create_test_data`'s rows with `steps_per_floor = 21`, the
row `{id:1, first_name:"Dan", second_name:"Germain", floor:1}` maps to
`{id:1, name:"Dan Germain", steps_to_desk:21}` and the row
`{id:3, first_name:"Alex", second_name:"Ioannides", floor:2}` maps to
`{id:3, name:"Alex Ioannides", steps_to_desk:42}`. -/
theorem transform_examples :
    (transform_data local_records 21)[0]?
        = some ⟨1, "Dan Germain", 21⟩ ∧
    (transform_data local_records 21)[2]?
        = some ⟨3, "Alex Ioannides", 42⟩ := by
  constructor <;> rfl

/-- C8: `load_data` writes the dataset as delimited text merged into a
single output file (one partition), whose content starts with the
header row, and the result of the write does not depend on what was
previously at the output path (overwrite). -/
theorem load_single_file_header_overwrite
    (parts : List (List ReportRecord)) (prior : List String)
    (h : parts ≠ []) :
    load_data parts prior = [csvFile parts.flatten] ∧
    (∃ t, csvFile parts.flatten = csvHeader ++ t) ∧
    load_data parts prior = load_data parts [] := by
  refine ⟨?_, ⟨_, rfl⟩, rfl⟩
  rcases parts with _ | ⟨p, ps⟩
  · exact absurd rfl h
  · rcases ps with _ | ⟨q, qs⟩
    · simp [load_data, coalesce1]
    · simp [load_data, coalesce1]

theorem load_single_file_header_overwrite_witness :
    load_data [transform_data local_records 21] ["stale"]
        = [csvFile (List.flatten [transform_data local_records 21])] ∧
    (∃ t, csvFile (List.flatten [transform_data local_records 21])
        = csvHeader ++ t) ∧
    load_data [transform_data local_records 21] ["stale"]
        = load_data [transform_data local_records 21] [] :=
  load_single_file_header_overwrite [transform_data local_records 21]
    ["stale"] (by simp)

/-- C9: the driver runs the three stages strictly in the order extract,
then transform, then load, each exactly once, with no branching, loops
or retries: its stage trace is exactly
`[extract, transform, load]` and its output is the load of the
transform of the extract. -/
theorem job_stage_order (store : List Record) (spf : Int)
    (prior : List String) :
    (job store spf prior).2
        = [Stage.extract, Stage.transform, Stage.load] ∧
    (job store spf prior).1
        = load_data [transform_data (extract_data store) spf] prior :=
  ⟨rfl, rfl⟩

/-- C10: `concat_ws` skips null fields: when `first_name` is null the
`name` produced by `transform_data` is just `second_name` with no
separator, when `second_name` is null it is just `first_name`, and when
both are null it is the empty string, never null. -/
theorem transform_name_null_handling (df : List Record) (spf : Int)
    (i : Nat) (h : i < df.length)
    (h2 : i < (transform_data df spf).length) :
    (∀ b, df[i].first_name = none → df[i].second_name = some b →
      (transform_data df spf)[i].name = b) ∧
    (∀ a, df[i].first_name = some a → df[i].second_name = none →
      (transform_data df spf)[i].name = a) ∧
    (df[i].first_name = none → df[i].second_name = none →
      (transform_data df spf)[i].name = "") := by
  refine ⟨?_, ?_, ?_⟩
  · intro b hfn hsn
    simp [transform_data, transformRow, concat_ws, joinSep, hfn, hsn]
  · intro a hfn hsn
    simp [transform_data, transformRow, concat_ws, joinSep, hfn, hsn]
  · intro hfn hsn
    simp [transform_data, transformRow, concat_ws, joinSep, hfn, hsn]

theorem transform_name_null_handling_witness :
    ((transform_data [(⟨1, none, some "Germain", 1⟩ : Record)] 21).get
        ⟨0, by decide⟩).name = "Germain" ∧
    ((transform_data [(⟨2, some "Dan", none, 1⟩ : Record)] 21).get
        ⟨0, by decide⟩).name = "Dan" ∧
    ((transform_data [(⟨3, none, none, 1⟩ : Record)] 21).get
        ⟨0, by decide⟩).name = "" :=
  ⟨(transform_name_null_handling [⟨1, none, some "Germain", 1⟩] 21 0
      (by decide) (by decide)).1 "Germain" rfl rfl,
   (transform_name_null_handling [⟨2, some "Dan", none, 1⟩] 21 0
      (by decide) (by decide)).2.1 "Dan" rfl rfl,
   (transform_name_null_handling [⟨3, none, none, 1⟩] 21 0
      (by decide) (by decide)).2.2 rfl rfl⟩

end PysparkEtl
